import Mathlib

/-!
Verification development for the rate-limiting core of the MiniEcommerce
user-service.  The Go sources embedded here are
`internal/interfaces/http/middleware/ratelimit.go` (local token-bucket
registry, client-IP extraction, 429 rejection) and
`internal/interfaces/http/middleware/redis_ratelimit.go` (shared fixed-window
counter over Redis).  Time and token amounts are rationals; Go `int`/`int64`
values are `ℤ`; maps are association lists.
-/

set_option maxRecDepth 10000

namespace MiniEcommerce

/-! ### Continuous token bucket

Modelled from the spec: the token-bucket algorithm lives in the dependency
`golang.org/x/time/rate` (`rate.NewLimiter`, `Limiter.Allow`), whose source is
not part of this repository; spec section 4.1 states its algorithm:
a fresh limiter holds the full burst; each call refills
`tokens = min(burst, tokens + elapsed * ratePerSecond)` and admits iff a whole
token is available, consuming one. -/

structure TokenBucketPolicy where
  ratePerSecond : ℚ
  burst : ℤ
deriving Repr, DecidableEq

structure BucketState where
  tokens : ℚ
  lastRefill : ℚ
deriving Repr, DecidableEq

/-- Modelled from the spec: `rate.NewLimiter` starts with the full burst
available (spec 4.1 step 1: `tokens = burst, lastRefill = now`). -/
def newBucket (p : TokenBucketPolicy) (now : ℚ) : BucketState :=
  { tokens := (p.burst : ℚ), lastRefill := now }

/-- Modelled from the spec: continuous refill (spec 4.1 step 2). -/
def refill (p : TokenBucketPolicy) (b : BucketState) (now : ℚ) : BucketState :=
  { tokens := min ((p.burst : ℚ)) (b.tokens + (now - b.lastRefill) * p.ratePerSecond),
    lastRefill := now }

/-- Modelled from the spec: `Limiter.Allow` — refill, then admit and consume one
token iff at least one whole token is available (spec 4.1 steps 3–4). -/
def bucketAllow (p : TokenBucketPolicy) (b : BucketState) (now : ℚ) : Bool × BucketState :=
  let b1 := refill p b now
  if 1 ≤ b1.tokens then (true, { b1 with tokens := b1.tokens - 1 })
  else (false, b1)

/-! ### Local limiter registry (`RateLimiter`, `getVisitor`, `cleanupVisitors`)

Embeds the `RateLimiter` struct of `ratelimit.go`: a visitors map guarded by
one `sync.RWMutex`, a rate, a burst and an idle TTL. -/

structure Visitor where
  limiter : BucketState
  lastSeen : ℚ
deriving Repr, DecidableEq

structure RateLimiter where
  visitors : List (String × Visitor)
  limit : ℚ
  burst : ℤ
  ttl : ℚ
deriving Repr, DecidableEq

/-- Embeds `NewRateLimiter`: stores the fields as given; the source performs no
validation of the policy values. -/
def NewRateLimiter (requestsPerSecond : ℚ) (burst : ℤ) (ttl : ℚ) : RateLimiter :=
  { visitors := [], limit := requestsPerSecond, burst := burst, ttl := ttl }

def RateLimiter.policy (rl : RateLimiter) : TokenBucketPolicy :=
  { ratePerSecond := rl.limit, burst := rl.burst }

def lookupKey {α : Type} (k : String) : List (String × α) → Option α
  | [] => none
  | (k', v) :: rest => if k' = k then some v else lookupKey k rest

def setKey {α : Type} (k : String) (v : α) : List (String × α) → List (String × α)
  | [] => [(k, v)]
  | (k', v') :: rest => if k' = k then (k, v) :: rest else (k', v') :: setKey k v rest

/-- Embeds `getVisitor`: under the registry mutex, look the key up; if absent,
create a fresh limiter and record it with `lastSeen = now`; if present, update
`lastSeen` and return its limiter. -/
def getVisitor (rl : RateLimiter) (key : String) (now : ℚ) : BucketState × RateLimiter :=
  match lookupKey key rl.visitors with
  | none =>
    let b := newBucket rl.policy now
    (b, { rl with visitors := setKey key { limiter := b, lastSeen := now } rl.visitors })
  | some v =>
    (v.limiter, { rl with visitors := setKey key { v with lastSeen := now } rl.visitors })

/-- Embeds the middleware hot path `l := limiter.getVisitor(ip); l.Allow()`:
the returned limiter is a pointer into the map, so the bucket update produced
by `Allow` lands back on the stored visitor. -/
def registryAllow (rl : RateLimiter) (key : String) (now : ℚ) : Bool × RateLimiter :=
  let br := getVisitor rl key now
  let ab := bucketAllow rl.policy br.1 now
  (ab.1, { br.2 with visitors := setKey key { limiter := ab.2, lastSeen := now } br.2.visitors })

def registryTrace (rl : RateLimiter) (key : String) : List ℚ → List Bool × RateLimiter
  | [] => ([], rl)
  | t :: ts =>
    let r1 := registryAllow rl key t
    let rs := registryTrace r1.2 key ts
    (r1.1 :: rs.1, rs.2)

/-- Embeds the eviction test `time.Since(v.lastSeen) > rl.ttl`. -/
def expiredBy (now ttl : ℚ) (v : Visitor) : Bool := decide (ttl < now - v.lastSeen)

/-- Embeds the scan phase of `cleanupVisitors`: collect the expired keys under
the read lock. -/
def expiredKeys (rl : RateLimiter) (now : ℚ) : List String :=
  (rl.visitors.filter (fun kv => expiredBy now rl.ttl kv.2)).map Prod.fst

def elemStr (k : String) : List String → Bool
  | [] => false
  | x :: xs => if x = k then true else elemStr k xs

/-- Embeds the delete phase of `cleanupVisitors`: delete each collected key
under the write lock. -/
def deleteKeys {α : Type} (ks : List String) (m : List (String × α)) : List (String × α) :=
  m.filter (fun kv => !(elemStr kv.1 ks))

/-- One cycle of the `cleanupVisitors` sweep at time `now`. -/
def cleanupTick (rl : RateLimiter) (now : ℚ) : RateLimiter :=
  { rl with visitors := deleteKeys (expiredKeys rl now) rl.visitors }

/-! ### Client-IP extraction (`getClientIP`)

Character-level embeddings of the pieces of the Go standard library the
function uses: `strings.Split(xff, ",")`, `strings.TrimSpace` (restricted to
ASCII whitespace, which is what HTTP header values contain), and the
`host:port` / `[host]:port` forms handled by `net.SplitHostPort`. -/

structure Request where
  xForwardedFor : String
  xRealIP : String
  remoteAddr : String
deriving Repr, DecidableEq

def splitOnComma : List Char → List (List Char)
  | [] => [[]]
  | c :: cs =>
    let r := splitOnComma cs
    if c = ',' then [] :: r
    else
      match r with
      | [] => [[c]]
      | g :: gs => (c :: g) :: gs

/-- Embeds `strings.Split(s, ",")`: splitting an `n`-comma string into `n+1`
pieces; the empty string yields one empty piece. -/
def goSplitComma (s : String) : List String := (splitOnComma s.data).map String.mk

def asciiSpace (c : Char) : Bool := c = ' ' || c = '\t' || c = '\n' || c = '\r'

def dropSpace : List Char → List Char
  | [] => []
  | c :: cs => if asciiSpace c then dropSpace cs else c :: cs

/-- Embeds `strings.TrimSpace` on header values: drop leading and trailing
whitespace. -/
def goTrimSpace (s : String) : String :=
  String.mk ((dropSpace (dropSpace s.data).reverse).reverse)

def splitLastColon : List Char → Option (List Char × List Char)
  | [] => none
  | c :: cs =>
    match splitLastColon cs with
    | some hp => some (c :: hp.1, hp.2)
    | none => if c = ':' then some ([], cs) else none

/-- Embeds `net.SplitHostPort` on its accepted address forms: split at the
last colon; a bracketed host has its brackets removed; an address with no
colon, or a bare multi-colon host, is an error (`none`). -/
def goSplitHostPort (s : String) : Option (String × String) :=
  match splitLastColon s.data with
  | none => none
  | some hp =>
    if hp.1.contains ':' then
      match hp.1 with
      | '[' :: rest =>
        if rest.getLast? = some ']' then some (String.mk rest.dropLast, String.mk hp.2)
        else none
      | _ => none
    else some (String.mk hp.1, String.mk hp.2)

/-- Embeds the `X-Real-IP` / `RemoteAddr` tail of `getClientIP`; the error of
`net.SplitHostPort` is discarded, leaving the empty string. -/
def realIPOrRemote (r : Request) : String :=
  if r.xRealIP ≠ "" then r.xRealIP
  else
    match goSplitHostPort r.remoteAddr with
    | some hp => hp.1
    | none => ""

/-- Embeds `getClientIP`: first the trimmed first comma-separated entry of a
non-empty `X-Forwarded-For`, then a non-empty `X-Real-IP`, then the host part
of `RemoteAddr`. -/
def getClientIP (r : Request) : String :=
  if r.xForwardedFor ≠ "" then
    let ips := goSplitComma r.xForwardedFor
    if 0 < ips.length then goTrimSpace (ips.headD "") else realIPOrRemote r
  else realIPOrRemote r

/-! ### Shared-counter limiter (`RedisRateLimiter`) -/

structure REntry where
  count : ℤ
  expiresAt : Option ℚ
deriving Repr, DecidableEq

/-- The shared store's key space: counter entries with an optional absolute
expiry time (`none` = no TTL). -/
abbrev RStore := List (String × REntry)

def entryLive (now : ℚ) (e : REntry) : Bool :=
  match e.expiresAt with
  | none => true
  | some t => decide (now < t)

def storeGet (s : RStore) (k : String) (now : ℚ) : Option REntry :=
  match lookupKey k s with
  | some e => if entryLive now e then some e else none
  | none => none

/-- Modelled from the spec: the shared store's `Increment` primitive (Redis
`INCR`, not part of this repository): a missing or expired key is created
with value 1 and no TTL, otherwise the counter is incremented; the
post-increment count is returned. -/
def storeIncr (s : RStore) (k : String) (now : ℚ) : ℤ × RStore :=
  match storeGet s k now with
  | some e => (e.count + 1, setKey k { e with count := e.count + 1 } s)
  | none => (1, setKey k { count := 1, expiresAt := none } s)

/-- Embeds the store call issued by `pipe.Expire(ctx, key, rl.window)` (Redis
`EXPIRE`): unconditionally resets the TTL of a live key; a no-op on a missing
key. -/
def storeExpire (s : RStore) (k : String) (now ttl : ℚ) : RStore :=
  match storeGet s k now with
  | some e => setKey k { e with expiresAt := some (now + ttl) } s
  | none => s

structure RedisRateLimiter where
  limit : ℤ
  window : ℚ
deriving Repr, DecidableEq

/-- Embeds `NewRedisRateLimiter`: stores the fields as given; the source
performs no validation of the policy values. -/
def NewRedisRateLimiter (limit : ℤ) (window : ℚ) : RedisRateLimiter :=
  { limit := limit, window := window }

def rateLimitKey (identifier : String) : String := "rate_limit:" ++ identifier

/-- Embeds the success path of `RedisRateLimiter.Allow`: increment, reset the
TTL in the same pipeline, and admit iff the post-increment count is at most
the limit. -/
def redisAllow (rl : RedisRateLimiter) (s : RStore) (identifier : String) (now : ℚ) :
    Bool × RStore :=
  let key := rateLimitKey identifier
  let cs := storeIncr s key now
  let s2 := storeExpire cs.2 key now rl.window
  (decide (cs.1 ≤ rl.limit), s2)

/-- Embeds `RedisRateLimiter.Allow` including the failure path: when the
pipeline `Exec` fails, the Go function returns `(false, err)` — the error is
handed to the caller, never swallowed into an allow/deny decision. -/
def redisAllowE (rl : RedisRateLimiter) (s : RStore) (storeDown : Bool)
    (identifier : String) (now : ℚ) : Except String (Bool × RStore) :=
  if storeDown then Except.error ("redis pipeline error")
  else Except.ok (redisAllow rl s identifier now)

def redisTrace (rl : RedisRateLimiter) (s : RStore) (identifier : String) :
    List ℚ → List Bool × RStore
  | [] => ([], s)
  | t :: ts =>
    let r1 := redisAllow rl s identifier t
    let rs := redisTrace rl r1.2 identifier ts
    (r1.1 :: rs.1, rs.2)

/-! ### Middleware composition -/

/-- The observable outcome of one middleware invocation: either the request
was forwarded to the protected handler (with the response headers the
middleware added), or it was short-circuited with a status and body — the
handler runs exactly in the `forwarded` case. -/
inductive MWOutcome where
  | forwarded (headers : List (String × String))
  | rejected (status : ℤ) (headers : List (String × String)) (body : List (String × String))
deriving Repr, DecidableEq

def MWOutcome.handlerInvoked : MWOutcome → Bool
  | .forwarded _ => true
  | .rejected _ _ _ => false

def MWOutcome.headerNames : MWOutcome → List String
  | .forwarded hs => hs.map Prod.fst
  | .rejected _ hs _ => hs.map Prod.fst

def rateLimitExceededBody : List (String × String) :=
  [("error", "rate_limit_exceeded"),
   ("message", "Too many requests. Please try again later.")]

/-- Embeds `rateLimitExceededResponse`: Content-Type header, status 429, and
the fixed JSON body. -/
def rateLimitExceededResponse : MWOutcome :=
  MWOutcome.rejected 429 [("Content-Type", "application/json")] rateLimitExceededBody

/-- Embeds `RateLimitMiddleware`: key by client IP, consult the local
registry, reject on denial, otherwise forward adding no response headers. -/
def rateLimitMiddleware (rl : RateLimiter) (r : Request) (now : ℚ) :
    MWOutcome × RateLimiter :=
  let res := registryAllow rl (getClientIP r) now
  if res.1 then (MWOutcome.forwarded [], res.2)
  else (rateLimitExceededResponse, res.2)

/-- Go `int(x)` truncation toward zero of a rational. -/
def trunc (q : ℚ) : ℤ := q.num / (q.den : ℤ)

/-- Embeds `CustomRateLimitMiddleware`'s per-request body: on allow it adds
the X-RateLimit-Limit / X-RateLimit-Remaining / X-RateLimit-Reset headers
(remaining is `int(l.Tokens())`, reset is one second from now). -/
def customRateLimitMiddleware (requestsPerSecond : ℚ) (rl : RateLimiter)
    (r : Request) (now : ℚ) : MWOutcome × RateLimiter :=
  let ip := getClientIP r
  let res := registryAllow rl ip now
  if res.1 then
    let remaining :=
      match lookupKey ip res.2.visitors with
      | some v => trunc v.limiter.tokens
      | none => 0
    (MWOutcome.forwarded
      [("X-RateLimit-Limit", toString (trunc requestsPerSecond)),
       ("X-RateLimit-Remaining", toString remaining),
       ("X-RateLimit-Reset", toString (trunc (now + 1)))],
      res.2)
  else (rateLimitExceededResponse, res.2)

/-- Embeds `RedisRateLimitMiddleware`: on an `Allow` error it logs and
forwards the request (fail open); on denial it writes the 429 rejection;
otherwise it forwards adding no response headers. -/
def redisRateLimitMiddleware (rl : RedisRateLimiter) (s : RStore)
    (storeDown : Bool) (r : Request) (now : ℚ) : MWOutcome × RStore :=
  match redisAllowE rl s storeDown (getClientIP r) now with
  | Except.error _ => (MWOutcome.forwarded [], s)
  | Except.ok res =>
    if res.1 then (MWOutcome.forwarded [], res.2)
    else (rateLimitExceededResponse, res.2)

/-! ### Two-request interleaving model for the registry lock

`getVisitor` runs its whole map section while holding the registry's single
`sync.RWMutex` (`rl.mu.Lock()`), releases it, and only then runs the bucket
update of `rate.Limiter.Allow`; that update is serialized per limiter by the
limiter's own internal mutex (modelled as one atomic step, from the spec,
since `golang.org/x/time/rate` is not part of this repository).  A thread is
one in-flight request; its three actions are: acquire the registry mutex,
run the map section and release, run the bucket update on the (shared)
stored visitor. -/

inductive Phase where
  | ready
  | mapLocked
  | bucketing
  | finished
deriving Repr, DecidableEq

structure ThreadCtl where
  key : String
  time : ℚ
  phase : Phase
  observed : Option Bool
deriving Repr, DecidableEq

structure ConcState where
  reg : RateLimiter
  muHeldBy : Option Bool
  t0 : ThreadCtl
  t1 : ThreadCtl
deriving Repr, DecidableEq

def thread (s : ConcState) (i : Bool) : ThreadCtl := if i then s.t1 else s.t0

def setThread (s : ConcState) (i : Bool) (t : ThreadCtl) : ConcState :=
  if i then { s with t1 := t } else { s with t0 := t }

/-- The map section of `getVisitor`, run under the registry mutex. -/
def mapPhase (rl : RateLimiter) (key : String) (now : ℚ) : RateLimiter :=
  (getVisitor rl key now).2

/-- The bucket update of `Allow`, applied to the visitor currently stored for
the key (pointer semantics: the limiter returned by `getVisitor` is the one
in the map). -/
def bucketPhase (rl : RateLimiter) (key : String) (now : ℚ) : Bool × RateLimiter :=
  match lookupKey key rl.visitors with
  | some v =>
    let ab := bucketAllow rl.policy v.limiter now
    (ab.1, { rl with visitors := setKey key { v with limiter := ab.2 } rl.visitors })
  | none => (false, rl)

/-- One scheduler step of thread `i`; `none` means the thread cannot act —
in particular a `ready` thread is blocked while the other thread holds the
single registry mutex, whatever key either of them is serving. -/
def threadStep (s : ConcState) (i : Bool) : Option ConcState :=
  let t := thread s i
  match t.phase with
  | Phase.ready =>
    match s.muHeldBy with
    | none => some (setThread { s with muHeldBy := some i } i { t with phase := Phase.mapLocked })
    | some _ => none
  | Phase.mapLocked =>
    some (setThread { s with reg := mapPhase s.reg t.key t.time, muHeldBy := none } i
      { t with phase := Phase.bucketing })
  | Phase.bucketing =>
    let br := bucketPhase s.reg t.key t.time
    some (setThread { s with reg := br.2 } i
      { t with phase := Phase.finished, observed := some br.1 })
  | Phase.finished => none

def runSched (s : ConcState) : List Bool → Option ConcState
  | [] => some s
  | i :: is =>
    match threadStep s i with
    | some s1 => runSched s1 is
    | none => none

def concStart (rl : RateLimiter) (k0 k1 : String) (now : ℚ) : ConcState :=
  { reg := rl, muHeldBy := none,
    t0 := { key := k0, time := now, phase := Phase.ready, observed := none },
    t1 := { key := k1, time := now, phase := Phase.ready, observed := none } }

/-- All 20 interleavings of the two threads' three-action sequences
(`false` = thread 0 acts, `true` = thread 1 acts). -/
def twoThreadScheds : List (List Bool) :=
  [[false, false, false, true, true, true],
   [false, false, true, false, true, true],
   [false, false, true, true, false, true],
   [false, false, true, true, true, false],
   [false, true, false, false, true, true],
   [false, true, false, true, false, true],
   [false, true, false, true, true, false],
   [false, true, true, false, false, true],
   [false, true, true, false, true, false],
   [false, true, true, true, false, false],
   [true, false, false, false, true, true],
   [true, false, false, true, false, true],
   [true, false, false, true, true, false],
   [true, false, true, false, false, true],
   [true, false, true, false, true, false],
   [true, false, true, true, false, false],
   [true, true, false, false, false, true],
   [true, true, false, false, true, false],
   [true, true, false, true, false, false],
   [true, true, true, false, false, false]]

/-! ### Concrete fixtures used by witnesses and counterexamples -/

def reqPlain : Request :=
  { xForwardedFor := "", xRealIP := "", remoteAddr := "9.9.9.9:12345" }

def reqXff : Request :=
  { xForwardedFor := " 1.2.3.4 ,10.0.0.1", xRealIP := "7.7.7.7", remoteAddr := "8.8.8.8:443" }

def reqXri : Request :=
  { xForwardedFor := "", xRealIP := "7.7.7.7", remoteAddr := "8.8.8.8:443" }

def c8reg : RateLimiter :=
  { visitors := [("1.2.3.4", { limiter := { tokens := 0, lastRefill := 0 }, lastSeen := 0 })],
    limit := 2, burst := 2, ttl := 60 }

def c7reg : RateLimiter := NewRateLimiter 0 2 60

def c7finalReg : RateLimiter :=
  { visitors := [("1.2.3.4", { limiter := { tokens := 0, lastRefill := 0 }, lastSeen := 0 })],
    limit := 0, burst := 2, ttl := 60 }

/-- The final state every completing two-request schedule reaches on one key:
both requests admitted, both token decrements applied to the shared bucket. -/
def c7final : ConcState :=
  { reg := c7finalReg,
    muHeldBy := none,
    t0 := { key := "1.2.3.4", time := 0, phase := Phase.finished, observed := some true },
    t1 := { key := "1.2.3.4", time := 0, phase := Phase.finished, observed := some true } }

/-! ### Helper lemmas -/

theorem splitOnComma_ne_nil (cs : List Char) : splitOnComma cs ≠ [] := by
  induction cs with
  | nil => simp [splitOnComma]
  | cons c cs ih =>
    simp only [splitOnComma]
    by_cases hc : c = ','
    · simp [hc]
    · simp only [hc, if_false]
      cases h : splitOnComma cs with
      | nil => simp
      | cons g gs => simp

theorem goSplitComma_length_pos (s : String) : 0 < (goSplitComma s).length := by
  unfold goSplitComma
  have h := splitOnComma_ne_nil s.data
  cases hs : splitOnComma s.data with
  | nil => exact absurd hs h
  | cons g gs => simp

theorem lookupKey_deleteKeys {α : Type} (ks : List String) (k : String)
    (hk : elemStr k ks = true) (m : List (String × α)) :
    lookupKey k (deleteKeys ks m) = none := by
  induction m with
  | nil => rfl
  | cons kv rest ih =>
    rcases kv with ⟨k', v⟩
    cases h : elemStr k' ks with
    | true =>
      simpa only [deleteKeys, List.filter_cons, h, Bool.not_true, Bool.false_eq_true,
        if_false] using ih
    | false =>
      have hne : k' ≠ k := by
        intro he
        rw [he, hk] at h
        cases h
      simp only [deleteKeys, List.filter_cons, h, Bool.not_false, if_true, lookupKey,
        if_neg hne]
      exact ih

theorem elem_keysOfFilter (p : Visitor → Bool) (k : String) (v : Visitor)
    (m : List (String × Visitor)) (hl : lookupKey k m = some v) (hp : p v = true) :
    elemStr k ((m.filter (fun kv => p kv.2)).map Prod.fst) = true := by
  induction m with
  | nil => cases hl
  | cons kv rest ih =>
    rcases kv with ⟨k', v'⟩
    by_cases he : k' = k
    · simp only [lookupKey, if_pos he, Option.some.injEq] at hl
      rw [List.filter_cons]
      simp only [hl, hp, if_true, List.map_cons, elemStr, if_pos he]
    · simp only [lookupKey, if_neg he] at hl
      have htail := ih hl
      rw [List.filter_cons]
      cases hv' : p v' with
      | true =>
        simp only [if_true, List.map_cons, elemStr, if_neg he]
        exact htail
      | false =>
        simp only [Bool.false_eq_true, if_false]
        exact htail

/-! ### Claim theorems -/

/-- C1: for a key under the token-bucket policy rate=2/s, burst=2, five
immediate Allow calls through the local registry yield exactly two `true`
followed by three `false`; after the denial, retrying at `1/rate = 1/2`
seconds yields exactly one additional `true` — the immediately following
call is denied again, i.e. a partial refill, not a full burst reset. -/
theorem c1_token_bucket_trace :
    (registryTrace (NewRateLimiter 2 2 60) "127.0.0.1"
      [0, 0, 0, 0, 0, 1/2, 1/2]).1
      = [true, true, false, false, false, true, false] := by
  norm_num [registryTrace, registryAllow, getVisitor, bucketAllow, refill, newBucket,
    lookupKey, setKey, RateLimiter.policy, NewRateLimiter, min_def]

/-- C2: the shared-counter limiter admits exactly when the post-increment
count is at most the limit; concretely, with limit=5 and window=60s, six
sequential requests against a fresh key are admitted five times and denied
the sixth, and a request arriving after the key's expiry (t=61) starts a
fresh window and is admitted. -/
theorem c2_shared_counter (rl : RedisRateLimiter) (s : RStore)
    (identifier : String) (now : ℚ) :
    ((redisAllow rl s identifier now).1 = true ↔
      (storeIncr s (rateLimitKey identifier) now).1 ≤ rl.limit) ∧
    (redisTrace (NewRedisRateLimiter 5 60) [] "9.9.9.9" [0, 0, 0, 0, 0, 0, 61]).1
      = [true, true, true, true, true, false, true] := by
  constructor
  · simp [redisAllow]
  · norm_num [redisTrace, redisAllow, storeIncr, storeGet, storeExpire, entryLive,
      lookupKey, setKey, rateLimitKey, NewRedisRateLimiter]

/-- C3: when the store pipeline fails, `Allow` hands the error to its caller
(it does not turn the failure into an allow or a deny), and the composing
middleware fails open: the request is forwarded to the protected handler and
the rejection payload is never produced. -/
theorem c3_fail_open (rl : RedisRateLimiter) (s : RStore) (identifier : String)
    (r : Request) (now : ℚ) :
    redisAllowE rl s true identifier now = Except.error ("redis pipeline error") ∧
    redisRateLimitMiddleware rl s true r now = (MWOutcome.forwarded [], s) ∧
    (redisRateLimitMiddleware rl s true r now).1.handlerInvoked = true ∧
    (redisRateLimitMiddleware rl s true r now).1 ≠ rateLimitExceededResponse := by
  refine ⟨rfl, rfl, rfl, ?_⟩
  simp [redisRateLimitMiddleware, redisAllowE, rateLimitExceededResponse]

/-- C6 (failing run): the expiry step is Redis `EXPIRE`, which resets the TTL
unconditionally on every call — not a set-if-unset.  With window=60s, the
first request at t=0 sets the key to expire at t=60, and a second request at
t=30 moves that expiry to t=90: the window end fixed by the first request IS
extended by a subsequent request, contradicting both the claim and the
code's own comment. -/
theorem c6_ttl_reset_on_every_call :
    ((lookupKey (rateLimitKey "9.9.9.9")
        (redisAllow (NewRedisRateLimiter 5 60)
          (redisAllow (NewRedisRateLimiter 5 60) [] "9.9.9.9" 0).2
          "9.9.9.9" 30).2).map REntry.expiresAt) = some (some 90) ∧
    (some (90 : ℚ) : Option ℚ) ≠ some 60 := by
  constructor
  · norm_num [redisAllow, storeIncr, storeGet, storeExpire, entryLive, lookupKey,
      setKey, rateLimitKey, NewRedisRateLimiter]
  · norm_num

/-- C9 (counterexample): supplying non-positive policy values at configuration
time is not fatal — both constructors accept them verbatim and return a
limiter, and that limiter then decides individual requests (denying the very
first one), i.e. the misbehavior happens per request rather than the system
being prevented from starting. -/
theorem c9_no_validation_counterexample :
    NewRateLimiter 0 0 1800 =
      { visitors := [], limit := 0, burst := 0, ttl := 1800 } ∧
    NewRedisRateLimiter 0 60 = { limit := 0, window := 60 } ∧
    (registryAllow (NewRateLimiter 0 0 1800) "9.9.9.9" 0).1 = false ∧
    (redisAllow (NewRedisRateLimiter 0 60) [] "9.9.9.9" 0).1 = false := by
  refine ⟨rfl, rfl, ?_, ?_⟩ <;>
    norm_num [registryAllow, getVisitor, bucketAllow, refill, newBucket, lookupKey,
      setKey, NewRateLimiter, RateLimiter.policy, redisAllow, storeIncr, storeGet,
      storeExpire, entryLive, rateLimitKey, NewRedisRateLimiter]

/-- C8: an entry whose `lastSeen` is more than `idleTTL` in the past at sweep
time is absent from the registry after that sweep, and a later `getVisitor`
for its key creates a fresh entry holding the full burst (first-ever
behavior). -/
theorem c8_idle_eviction (rl : RateLimiter) (now : ℚ) (key : String) (v : Visitor)
    (hl : lookupKey key rl.visitors = some v)
    (hexp : rl.ttl < now - v.lastSeen) :
    lookupKey key (cleanupTick rl now).visitors = none ∧
    ∀ now2 : ℚ, (getVisitor (cleanupTick rl now) key now2).1 = newBucket rl.policy now2 := by
  have hb : expiredBy now rl.ttl v = true := by
    simp [expiredBy, hexp]
  have hc : elemStr key (expiredKeys rl now) = true :=
    elem_keysOfFilter _ key v rl.visitors hl hb
  have hnone : lookupKey key (cleanupTick rl now).visitors = none :=
    lookupKey_deleteKeys _ key hc rl.visitors
  refine ⟨hnone, fun now2 => ?_⟩
  simp only [getVisitor, hnone]
  rfl

/-- C8 witness: a registry holding one entry last seen at t=0 with ttl=60,
swept at t=100: the entry is gone, and the key is served a full fresh bucket
afterwards. -/
theorem c8_idle_eviction_witness :
    lookupKey "1.2.3.4" (cleanupTick c8reg 100).visitors = none ∧
    (getVisitor (cleanupTick c8reg 100) "1.2.3.4" 100).1 = newBucket c8reg.policy 100 := by
  have h := c8_idle_eviction c8reg 100 "1.2.3.4"
    { limiter := { tokens := 0, lastRefill := 0 }, lastSeen := 0 }
    (by rfl) (by norm_num [c8reg])
  exact ⟨h.1, h.2 100⟩

/-- C9 (amended): the constructors validate nothing: non-positive rate, burst,
limit or window values are accepted verbatim and produce a limiter; the
misbehavior then shows up per request — with non-positive burst the local
limiter denies every first request for a key, and with non-positive limit the
shared limiter denies the first request of every window. -/
theorem c9_amended (rps ttl window : ℚ) (burst limit : ℤ)
    (hb : burst ≤ 0) (hl : limit ≤ 0) :
    NewRateLimiter rps burst ttl
      = { visitors := [], limit := rps, burst := burst, ttl := ttl } ∧
    NewRedisRateLimiter limit window = { limit := limit, window := window } ∧
    (∀ identifier now,
      (registryAllow (NewRateLimiter rps burst ttl) identifier now).1 = false) ∧
    (∀ identifier now,
      (redisAllow (NewRedisRateLimiter limit window) [] identifier now).1 = false) := by
  refine ⟨rfl, rfl, fun identifier now => ?_, fun identifier now => ?_⟩
  · have hcast : (burst : ℚ) ≤ 0 := by exact_mod_cast hb
    have h1 : ((burst : ℚ)) + (now - now) * rps = (burst : ℚ) := by ring
    simp only [registryAllow, getVisitor, NewRateLimiter, lookupKey,
      RateLimiter.policy, bucketAllow, refill, newBucket, h1, min_self]
    rw [if_neg (by linarith)]
  · have h2 : ¬ ((1 : ℤ) ≤ limit) := by omega
    simp only [redisAllow, storeIncr, storeGet, lookupKey]
    simpa using h2

/-- C9 (amended) witness: zero burst / zero limit are accepted and the first
request is denied at request time. -/
theorem c9_amended_witness :
    NewRateLimiter 0 0 1800
      = { visitors := [], limit := 0, burst := 0, ttl := 1800 } ∧
    NewRedisRateLimiter 0 60 = { limit := 0, window := 60 } ∧
    (registryAllow (NewRateLimiter 0 0 1800) "8.8.8.8" 5).1 = false ∧
    (redisAllow (NewRedisRateLimiter 0 60) [] "8.8.8.8" 5).1 = false := by
  have h := c9_amended 0 1800 60 0 0 (by norm_num) (by norm_num)
  exact ⟨h.1, h.2.1, h.2.2.1 "8.8.8.8" 5, h.2.2.2 "8.8.8.8" 5⟩

/-- C4: whenever either limiter denies a request, the middleware answers with
status 429 and the fixed payload
error = rate_limit_exceeded / message = human string, and the protected
handler is not invoked. -/
theorem c4_denial_response (rl : RateLimiter) (rrl : RedisRateLimiter) (s : RStore)
    (r : Request) (now : ℚ)
    (hloc : (registryAllow rl (getClientIP r) now).1 = false)
    (hred : (redisAllow rrl s (getClientIP r) now).1 = false) :
    rateLimitMiddleware rl r now
      = (MWOutcome.rejected 429 [("Content-Type", "application/json")] rateLimitExceededBody,
         (registryAllow rl (getClientIP r) now).2) ∧
    (rateLimitMiddleware rl r now).1.handlerInvoked = false ∧
    redisRateLimitMiddleware rrl s false r now
      = (MWOutcome.rejected 429 [("Content-Type", "application/json")] rateLimitExceededBody,
         (redisAllow rrl s (getClientIP r) now).2) ∧
    (redisRateLimitMiddleware rrl s false r now).1.handlerInvoked = false := by
  have h1 : rateLimitMiddleware rl r now
      = (rateLimitExceededResponse, (registryAllow rl (getClientIP r) now).2) := by
    simp [rateLimitMiddleware, hloc]
  have h2 : redisRateLimitMiddleware rrl s false r now
      = (rateLimitExceededResponse, (redisAllow rrl s (getClientIP r) now).2) := by
    simp [redisRateLimitMiddleware, redisAllowE, hred]
  exact ⟨by rw [h1]; rfl, by rw [h1]; rfl, by rw [h2]; rfl, by rw [h2]; rfl⟩

/-- C4 witness: a zero-burst local limiter and a zero-limit shared limiter
both deny the first request, which is rejected with 429 and never reaches the
handler. -/
theorem c4_denial_response_witness :
    rateLimitMiddleware (NewRateLimiter 2 0 60) reqPlain 0
      = (MWOutcome.rejected 429 [("Content-Type", "application/json")] rateLimitExceededBody,
         (registryAllow (NewRateLimiter 2 0 60) (getClientIP reqPlain) 0).2) ∧
    (rateLimitMiddleware (NewRateLimiter 2 0 60) reqPlain 0).1.handlerInvoked = false ∧
    redisRateLimitMiddleware (NewRedisRateLimiter 0 60) [] false reqPlain 0
      = (MWOutcome.rejected 429 [("Content-Type", "application/json")] rateLimitExceededBody,
         (redisAllow (NewRedisRateLimiter 0 60) [] (getClientIP reqPlain) 0).2) ∧
    (redisRateLimitMiddleware (NewRedisRateLimiter 0 60) [] false reqPlain 0).1.handlerInvoked
      = false :=
  c4_denial_response (NewRateLimiter 2 0 60) (NewRedisRateLimiter 0 60) [] reqPlain 0
    (by norm_num [registryAllow, getVisitor, bucketAllow, refill, newBucket, lookupKey,
      setKey, NewRateLimiter, RateLimiter.policy])
    (by norm_num [redisAllow, storeIncr, storeGet, entryLive, lookupKey, setKey,
      rateLimitKey, NewRedisRateLimiter])

/-- C5 (counterexample): `Allow` hands back only a boolean (plus an error for
the shared limiter) — no record with remaining/resetAt exists — and a request
ADMITTED by `RateLimitMiddleware` or `RedisRateLimitMiddleware` is forwarded
with an empty header list: no remaining/resetAt metadata accompanies the
response, contrary to the claim. -/
theorem c5_no_metadata_counterexample :
    (rateLimitMiddleware (NewRateLimiter 2 2 60) reqPlain 0).1 = MWOutcome.forwarded [] ∧
    (redisRateLimitMiddleware (NewRedisRateLimiter 5 60) [] false reqPlain 0).1
      = MWOutcome.forwarded [] := by
  constructor
  · norm_num [rateLimitMiddleware, registryAllow, getVisitor, bucketAllow, refill,
      newBucket, lookupKey, setKey, NewRateLimiter, RateLimiter.policy]
  · norm_num [redisRateLimitMiddleware, redisAllowE, redisAllow, storeIncr, storeGet,
      storeExpire, entryLive, lookupKey, setKey, rateLimitKey, NewRedisRateLimiter]

/-- C5 (amended): every Allow call yields a definite boolean decision, but
remaining/reset metadata is carried only by `CustomRateLimitMiddleware`,
which attaches the X-RateLimit-Limit / X-RateLimit-Remaining /
X-RateLimit-Reset headers on allowed responses; the base middlewares forward
allowed requests with no metadata headers at all. -/
theorem c5_amended (rps : ℚ) (rl : RateLimiter) (rrl : RedisRateLimiter) (s : RStore)
    (r : Request) (now : ℚ)
    (hloc : (registryAllow rl (getClientIP r) now).1 = true)
    (hred : (redisAllow rrl s (getClientIP r) now).1 = true) :
    (rateLimitMiddleware rl r now).1 = MWOutcome.forwarded [] ∧
    (redisRateLimitMiddleware rrl s false r now).1 = MWOutcome.forwarded [] ∧
    (customRateLimitMiddleware rps rl r now).1.headerNames
      = ["X-RateLimit-Limit", "X-RateLimit-Remaining", "X-RateLimit-Reset"] ∧
    (customRateLimitMiddleware rps rl r now).1.handlerInvoked = true := by
  refine ⟨?_, ?_, ?_, ?_⟩ <;>
    simp [rateLimitMiddleware, redisRateLimitMiddleware, redisAllowE,
      customRateLimitMiddleware, hloc, hred, MWOutcome.headerNames,
      MWOutcome.handlerInvoked]

/-- C5 (amended) witness: with full burst/limit available the first request is
allowed: the base middlewares attach nothing, the custom one attaches the
three metadata headers. -/
theorem c5_amended_witness :
    (rateLimitMiddleware (NewRateLimiter 2 2 60) reqPlain 5).1 = MWOutcome.forwarded [] ∧
    (redisRateLimitMiddleware (NewRedisRateLimiter 5 60) [] false reqPlain 5).1
      = MWOutcome.forwarded [] ∧
    (customRateLimitMiddleware 2 (NewRateLimiter 2 2 60) reqPlain 5).1.headerNames
      = ["X-RateLimit-Limit", "X-RateLimit-Remaining", "X-RateLimit-Reset"] ∧
    (customRateLimitMiddleware 2 (NewRateLimiter 2 2 60) reqPlain 5).1.handlerInvoked
      = true :=
  c5_amended 2 (NewRateLimiter 2 2 60) (NewRedisRateLimiter 5 60) [] reqPlain 5
    (by norm_num [registryAllow, getVisitor, bucketAllow, refill, newBucket, lookupKey,
      setKey, NewRateLimiter, RateLimiter.policy])
    (by norm_num [redisAllow, storeIncr, storeGet, entryLive, lookupKey, setKey,
      rateLimitKey, NewRedisRateLimiter])

/-- C10: the identity key is computed from client-suppliable fields in fixed
priority order — the trimmed first comma-separated entry of a non-empty
X-Forwarded-For, else a non-empty X-Real-IP, else the host part of
RemoteAddr — and any two requests agreeing on those three fields are mapped
to the same rate-limit partition key. -/
theorem c10_client_ip (r r2 : Request) :
    (r.xForwardedFor ≠ "" →
      getClientIP r = goTrimSpace ((goSplitComma r.xForwardedFor).headD "")) ∧
    (r.xForwardedFor = "" → r.xRealIP ≠ "" → getClientIP r = r.xRealIP) ∧
    (r.xForwardedFor = "" → r.xRealIP = "" →
      getClientIP r = (goSplitHostPort r.remoteAddr).elim "" Prod.fst) ∧
    (r.xForwardedFor = r2.xForwardedFor → r.xRealIP = r2.xRealIP →
      r.remoteAddr = r2.remoteAddr → getClientIP r = getClientIP r2) := by
  refine ⟨fun hx => ?_, fun hx hr => ?_, fun hx hr => ?_, fun h1 h2 h3 => ?_⟩
  · simp [getClientIP, hx, goSplitComma_length_pos]
  · simp [getClientIP, hx, realIPOrRemote, hr]
  · simp only [getClientIP, hx, ne_eq, not_true_eq_false, if_false, realIPOrRemote, hr]
    cases goSplitHostPort r.remoteAddr <;> rfl
  · cases r
    cases r2
    simp only at h1 h2 h3
    subst h1
    subst h2
    subst h3
    rfl

/-- C10 witness: a spoofed X-Forwarded-For wins over everything, X-Real-IP is
used when X-Forwarded-For is absent, and the RemoteAddr host is the last
resort. -/
theorem c10_client_ip_witness :
    getClientIP reqXff = "1.2.3.4" ∧
    getClientIP reqXri = "7.7.7.7" ∧
    getClientIP reqPlain = "9.9.9.9" := by
  refine ⟨?_, ?_, ?_⟩
  · exact ((c10_client_ip reqXff reqXff).1 (by decide)).trans (by decide)
  · exact ((c10_client_ip reqXri reqXri).2.1 rfl (by decide)).trans rfl
  · exact ((c10_client_ip reqPlain reqPlain).2.2.1 rfl rfl).trans (by decide)

/-- C7 (counterexample): `getVisitor` runs under the registry's single
`sync.RWMutex`; with thread 0 holding it for key "1.2.3.4", thread 1 cannot
begin serving the DIFFERENT key "5.6.7.8" — the schedule blocks, so requests
for distinct keys do contend on the hot path. -/
theorem c7_global_lock_blocks :
    runSched (concStart (NewRateLimiter 2 2 60) "1.2.3.4" "5.6.7.8" 0)
      [false, true] = none := rfl

/-- C7 (amended): per-key mutation is serialized — every schedule of two
same-key requests either blocks on the mutex or completes with both token
decrements applied to the shared bucket (no lost update) — but the
serialization comes from a single registry-wide mutex, so requests for
different keys contend: a thread holding it for one key blocks the other
key's request. -/
theorem c7_serialized_but_global_lock (sched : List Bool)
    (hs : sched ∈ twoThreadScheds) :
    (runSched (concStart c7reg "1.2.3.4" "1.2.3.4" 0) sched = none ∨
     runSched (concStart c7reg "1.2.3.4" "1.2.3.4" 0) sched = some c7final) ∧
    runSched (concStart c7reg "1.2.3.4" "5.6.7.8" 0) [false, true] = none := by
  refine ⟨?_, rfl⟩
  fin_cases hs <;>
    norm_num [runSched, threadStep, thread, setThread, mapPhase, bucketPhase,
      getVisitor, bucketAllow, refill, newBucket, lookupKey, setKey, c7reg,
      NewRateLimiter, RateLimiter.policy, concStart, c7final, c7finalReg]

/-- C7 witness: the maximally interleaved schedule — both map sections run
before either bucket update — completes with both decrements applied. -/
theorem c7_serialized_witness :
    (runSched (concStart c7reg "1.2.3.4" "1.2.3.4" 0)
        [false, false, true, true, false, true] = none ∨
     runSched (concStart c7reg "1.2.3.4" "1.2.3.4" 0)
        [false, false, true, true, false, true] = some c7final) ∧
    runSched (concStart c7reg "1.2.3.4" "5.6.7.8" 0) [false, true] = none :=
  c7_serialized_but_global_lock [false, false, true, true, false, true] (by decide)

end MiniEcommerce
